import Mathlib

/-!
Shallow embedding of `pyrandr2/randr.py` (the `Mode`, `ScreenSettings` and
`Display` classes with their guarded property setters, command synthesis and
refresh logic, plus the `RotateDirection` and `PositionType` lookup tables).

External effects are made explicit parameters:
* a fallible operation returns `Display × Option RandrError`, where the first
  component is the Python object's state when the call returns or raises
  (a raised `ValueError` leaves the object untouched, since every raise in the
  source happens before any field assignment);
* `apply_settings` receives the outcome of the external `xrandr` invocation as
  a boolean (`execOk`) and the fresh raw query record as a parameter, standing
  for `exec_cmd` and `get_display_data`.
-/

namespace Pyrandr2

/-- Errors the source raises as `ValueError` (distinguished by their message)
plus the propagated external-command failure (`CalledProcessError`). -/
inductive RandrError where
  /-- `ValueError('The Screen is off')` from the resolution setter. -/
  | screenOff
  /-- `ValueError('Requested resolution is not supported', new_res)` from `check_resolution`. -/
  | unsupportedResolution (res : Nat × Nat)
  /-- `ValueError('Invalid rotation ', item)` from `RotateDirection.__getitem__` on an integer. -/
  | invalidRotation (n : Int)
  /-- `ValueError('Invalid position', item)` from `PositionType.__getitem__`;
  carries the lowercased item, `none` when the stored direction is `None`. -/
  | invalidPosition (item : Option String)
  /-- the external command raised (`check_output` non-zero exit), propagated by `apply_settings`. -/
  | execFailed
deriving DecidableEq, Repr

/-- `Mode.__init__`: one supported resolution / refresh-rate combination. -/
structure Mode where
  width : Nat
  height : Nat
  freq : Rat
  current : Bool
  preferred : Bool
deriving DecidableEq, Repr

/-- `Mode.resolution()` without the string flag: the `(width, height)` pair. -/
def Mode.resolution (m : Mode) : Nat × Nat :=
  (m.width, m.height)

/-- The `change_table` dict of `ScreenSettings`: one dirty flag per configurable field. -/
structure ChangeTable where
  resolution : Bool
  is_primary : Bool
  is_enabled : Bool
  rotation : Bool
  position : Bool
deriving DecidableEq, Repr

/-- The `change_table` as initialised in `ScreenSettings.__init__` and after
`Display.__reset_change_table`: every entry `False`. -/
def ChangeTable.allFalse : ChangeTable :=
  { resolution := false, is_primary := false, is_enabled := false,
    rotation := false, position := false }

/-- The backing store of a `Display` object (`ScreenSettings` fields; the
source's `Display` holds exactly one `ScreenSettings` as `self.__cfg`).
`Option` stands for fields the source initialises to `None`. -/
structure Display where
  name : String
  resolution : Nat × Nat
  is_primary : Bool
  is_enabled : Bool
  rotation : Option String
  position : Option String × Option String
  is_connected : Bool
  curr_mode : Option Mode
  modes : List Mode
  change_table : ChangeTable
deriving DecidableEq, Repr

/-- A raw query record for one output as produced by `parse_xrandr(..., raw=True)`
and consumed by `Display.update_setting` / `Display.__init__`:
the parsed mode list, the reported rotation (`rot` regex group, `None` when
absent) and the primary marker (`pr` group, truthiness only). -/
structure RawSetting where
  modes : List Mode
  rot : Option String
  pr : Bool
deriving DecidableEq, Repr

/-- `RotateDirection.__getitem__` on an `int`: the fixed degree-to-symbol table
`{0: normal, 90: right, 180: inverted, 270: left}`; anything else raises. -/
def rotToSymbol (n : Int) : Except RandrError String :=
  if n = 0 then .ok "normal"
  else if n = 90 then .ok "right"
  else if n = 180 then .ok "inverted"
  else if n = 270 then .ok "left"
  else .error (.invalidRotation n)

/-- Python `str.lower()` over the characters of the string (the directions the
source lowercases are ASCII). -/
def pyLower (s : String) : String :=
  String.mk (s.data.map Char.toLower)

/-- `PositionType.__getitem__`: lowercases the item and looks it up in the
fixed table; a non-string (`None`) or unknown direction raises. -/
def posToFlag (item : Option String) : Except RandrError String :=
  match item with
  | none => .error (.invalidPosition none)
  | some s =>
    let t := pyLower s
    if t = "leftof" then .ok "--left-of"
    else if t = "rightof" then .ok "--right-of"
    else if t = "above" then .ok "--above"
    else if t = "below" then .ok "--below"
    else if t = "sameas" then .ok "--same-as"
    else .error (.invalidPosition (some t))

namespace Display

/-- `Display.available_resolutions()` (tuple form): resolutions of all modes, in order. -/
def available_resolutions (d : Display) : List (Nat × Nat) :=
  d.modes.map Mode.resolution

/-- `any(self.is_changed.values())` over the five `change_table` entries. -/
def anyChanged (ct : ChangeTable) : Bool :=
  ct.resolution || ct.is_primary || ct.is_enabled || ct.rotation || ct.position

/-- The `position` property setter: compares the incoming pair against the
stored one, then stores the direction lowercased and flags the entry.
Callers pass a pair of strings (`(position, relative_to)` per the docstring). -/
def setPosition (d : Display) (new_pos : String × String) : Display :=
  if ((some new_pos.1, some new_pos.2) : Option String × Option String) ≠ d.position then
    { d with position := (some (pyLower new_pos.1), some new_pos.2),
             change_table := { d.change_table with position := true } }
  else d

/-- The `is_enabled` property setter: on a differing value it negates the
stored flag and negates (not sets) the `change_table` entry. -/
def set_is_enabled (d : Display) (enable : Bool) : Display :=
  if enable ≠ d.is_enabled then
    { d with is_enabled := !d.is_enabled,
             change_table := { d.change_table with is_enabled := !d.change_table.is_enabled } }
  else d

/-- The `is_primary` property setter: same negate-on-change shape as `is_enabled`. -/
def set_is_primary (d : Display) (p : Bool) : Display :=
  if p ≠ d.is_primary then
    { d with is_primary := !d.is_primary,
             change_table := { d.change_table with is_primary := !d.change_table.is_primary } }
  else d

/-- The `resolution` property setter: raises `'The Screen is off'` when the
display is disabled with no pending enable (checked before anything else),
silently ignores a write of the stored value, otherwise validates against
`available_resolutions` (unless `custom`) and stores the value, flagging the
entry. The returned `Display` is the object's state on return or raise. -/
def setResolution (d : Display) (new_res : Nat × Nat) (custom : Bool) :
    Display × Option RandrError :=
  if !d.is_enabled && !d.change_table.is_enabled then
    (d, some .screenOff)
  else if new_res ≠ d.resolution then
    if !custom && !((available_resolutions d).contains new_res) then
      (d, some (.unsupportedResolution new_res))
    else
      ({ d with resolution := new_res,
                change_table := { d.change_table with resolution := true } }, none)
  else (d, none)

/-- Argument of the `rotation` setter: the source accepts an `int` (converted
through `RotateDirection`) or a string (stored as given). -/
inductive RotArg where
  | int (n : Int)
  | str (s : String)

/-- The string tail of the `rotation` setter: store on change, flag the entry. -/
def setRotationVal (d : Display) (s : String) : Display :=
  if some s ≠ d.rotation then
    { d with rotation := some s,
             change_table := { d.change_table with rotation := true } }
  else d

/-- The `rotation` property setter: an integer goes through `RotateDirection`
first (raising on an unknown degree); the symbolic form is then stored verbatim
when it differs from the stored one. -/
def setRotation (d : Display) (a : RotArg) : Display × Option RandrError :=
  match a with
  | .int n =>
    match rotToSymbol n with
    | .error e => (d, some e)
    | .ok s => (setRotationVal d s, none)
  | .str s => (setRotationVal d s, none)

/-- `'{0}x{1}'.format(*self.resolution)`. -/
def resToStr (r : Nat × Nat) : String :=
  toString r.1 ++ "x" ++ toString r.2

/-- `Display.build_cmd`: `.ok none` models the `False` return (no pending
change); `.error` models the `ValueError` `PositionType` raises during
synthesis. The `getD ""` reads are only reached when the corresponding
`change_table` entry is true, which in the source implies the field holds a
string, never `None`. -/
def build_cmd (d : Display) : Except RandrError (Option (List String)) :=
  if anyChanged d.change_table then
    let cmd := ["xrandr", "--output", d.name]
    if d.change_table.is_enabled && !d.is_enabled then
      .ok (some (cmd ++ ["--off"]))
    else
      let cmd := cmd ++
        (if d.change_table.resolution then ["--mode", resToStr d.resolution] else ["--auto"])
      let cmd := cmd ++
        (if d.is_primary && d.change_table.is_primary then ["--primary"] else [])
      let cmd := cmd ++
        (if d.change_table.rotation then ["--rotate", d.rotation.getD ""] else [])
      if d.change_table.position then
        match posToFlag d.position.1 with
        | .error e => .error e
        | .ok flag => .ok (some (cmd ++ [flag, d.position.2.getD ""]))
      else .ok (some cmd)
  else .ok none

/-- The `for mode in raw_setting['modes']` loop of `update_setting`: each
non-current mode overwrites `curr_mode` with `None` before the next iteration,
a current one is kept and the loop breaks. Over an empty list the body never
runs, so the previous `curr_mode` survives. -/
def scanCurrent (modes : List Mode) (old : Option Mode) : Option Mode :=
  match modes with
  | [] => old
  | _ :: _ => modes.find? (fun m => m.current)

/-- `raw_setting['rot'] or self.rot_convert[0]`: the reported rotation when
truthy (a non-empty string), else `'normal'`. -/
def defaultRot (rot : Option String) : String :=
  match rot with
  | none => "normal"
  | some s => if s = "" then "normal" else s

/-- `Display.update_setting` applied to a given raw record: replace `modes`,
rescan for the current mode, derive `is_enabled` / `is_connected` /
`rotation` / `is_primary`, take the resolution from the current mode when one
was found, and reset the whole `change_table`. -/
def update_setting (d : Display) (raw : RawSetting) : Display :=
  let curr := scanCurrent raw.modes d.curr_mode
  { d with
    modes := raw.modes
    curr_mode := curr
    is_enabled := curr.isSome
    is_connected := !raw.modes.isEmpty
    rotation := some (defaultRot raw.rot)
    is_primary := raw.pr
    resolution :=
      match curr with
      | some m => m.resolution
      | none => d.resolution
    change_table := ChangeTable.allFalse }

/-- `Display.__init__`: a fresh `ScreenSettings` (the `None` / `(0,0)` /
all-false defaults), the name, then `update_setting` on the initial record. -/
def mkDisplay (name : String) (raw : RawSetting) : Display :=
  update_setting
    { name := name, resolution := (0, 0), is_primary := false, is_enabled := true,
      rotation := none, position := (none, none), is_connected := true,
      curr_mode := none, modes := [], change_table := ChangeTable.allFalse } raw

/-- `Display.apply_settings`: the default path executes a fixed `--auto`
command; otherwise a command is built and executed only when something
changed. The refresh (`update_setting` on a fresh query, which also clears the
`change_table`) runs only when no exception was raised before it; a raise
leaves the object exactly as it was. `execOk` is the outcome of `exec_cmd`,
`fresh` the record `get_display_data` would return. -/
def apply_settings (d : Display) (useDefault : Bool) (execOk : Bool)
    (fresh : RawSetting) : Display × Option RandrError :=
  if useDefault then
    if execOk then (update_setting d fresh, none) else (d, some .execFailed)
  else if anyChanged d.change_table then
    match build_cmd d with
    | .error e => (d, some e)
    | .ok _ => if execOk then (update_setting d fresh, none) else (d, some .execFailed)
  else (update_setting d fresh, none)

end Display

/-! Concrete fixtures used by the scenario theorems, counterexamples and
witnesses. -/

/-- The single mode of the spec's HDMI-1 scenario: 1920x1080 at 60.0 Hz,
current and preferred. -/
def modeHD : Mode :=
  { width := 1920, height := 1080, freq := 60, current := true, preferred := true }

/-- Raw record for an enabled, non-primary output with rotation `normal`. -/
def rawHD : RawSetting :=
  { modes := [modeHD], rot := some "normal", pr := false }

/-- The spec scenario's display: name HDMI-1, one current+preferred mode. -/
def dispHDMI : Display :=
  Display.mkDisplay "HDMI-1" rawHD

/-- Same record under the name eDP-1, for the position scenario. -/
def dispEDP : Display :=
  Display.mkDisplay "eDP-1" rawHD

/-- A mode that is reported but not current: the owning display is off. -/
def modeIdle : Mode :=
  { width := 1024, height := 768, freq := 60, current := false, preferred := false }

/-- Raw record of a connected but disabled output (no current mode). -/
def rawOff : RawSetting :=
  { modes := [modeIdle], rot := none, pr := false }

/-- A disabled display: `is_enabled` false, resolution left at the `(0,0)` sentinel. -/
def dispOff : Display :=
  Display.mkDisplay "VGA-1" rawOff

/-- A raw record whose mode list is empty (the case `update_setting` mishandles). -/
def rawEmpty : RawSetting :=
  { modes := [], rot := none, pr := false }

/-- `dispHDMI` after a pending rotation change (used to exercise `apply_settings`). -/
def dispPendingRot : Display :=
  (Display.setRotation dispHDMI (.int 90)).1

/-- `dispOff` after `is_enabled = True`: stored flag true, pending enable queued,
resolution still the `(0,0)` sentinel, which is absent from its mode list. -/
def dispOffEnabled : Display :=
  Display.set_is_enabled dispOff true

/-- C6: on the HDMI-1 scenario display, `setRotation(90)` converts 90 to
`right` through the codec and raises nothing, and `build_cmd` then returns
exactly `[xrandr, --output, HDMI-1, --auto, --rotate, right]`. -/
theorem C6_rotation_scenario :
    (Display.setRotation dispHDMI (.int 90)).2 = none ∧
    (Display.setRotation dispHDMI (.int 90)).1.rotation = some "right" ∧
    Display.build_cmd (Display.setRotation dispHDMI (.int 90)).1 =
      .ok (some ["xrandr", "--output", "HDMI-1", "--auto", "--rotate", "right"]) :=
  ⟨rfl, rfl, rfl⟩

/-- C9: `setPosition("LeftOf", "HDMI-1")` stores the direction lowercased, and
`build_cmd` succeeds with `--left-of HDMI-1` as its final two tokens. -/
theorem C9_position_scenario :
    (Display.setPosition dispEDP ("LeftOf", "HDMI-1")).position =
      (some "leftof", some "HDMI-1") ∧
    Display.build_cmd (Display.setPosition dispEDP ("LeftOf", "HDMI-1")) =
      .ok (some (["xrandr", "--output", "eDP-1", "--auto"] ++ ["--left-of", "HDMI-1"])) :=
  ⟨rfl, rfl⟩

/-- C3: refreshing a display with a raw record whose mode list is empty leaves
`curr_mode` holding the previous query's `Mode` (and `is_enabled` true) even
though `modes` is now empty — the stale reference the spec's invariant forbids. -/
theorem C3_empty_refresh_dangles :
    (Display.update_setting dispHDMI rawEmpty).modes = [] ∧
    (Display.update_setting dispHDMI rawEmpty).curr_mode = some modeHD ∧
    (Display.update_setting dispHDMI rawEmpty).is_enabled = true ∧
    (Display.update_setting dispHDMI rawEmpty).is_connected = false :=
  ⟨rfl, rfl, rfl, rfl⟩

/-- C1 counterexample: with a rotation change pending and the external command
failing, `apply_settings` raises and returns with the display untouched, so the
`change_table` rotation entry is still true — not every entry is false. -/
theorem C1_counterexample :
    Display.apply_settings dispPendingRot false false rawHD =
      (dispPendingRot, some .execFailed) ∧
    dispPendingRot.change_table.rotation = true :=
  ⟨rfl, rfl⟩

/-- C2 counterexample: two consecutive value-changing `is_enabled` writes
(true→false, then false→true) leave the `change_table` entry false, because the
setter toggles the entry instead of setting it true. -/
theorem C2_counterexample :
    dispHDMI.is_enabled = true ∧
    (Display.set_is_enabled dispHDMI false).is_enabled = false ∧
    (Display.set_is_enabled (Display.set_is_enabled dispHDMI false) true).is_enabled = true ∧
    (Display.set_is_enabled (Display.set_is_enabled dispHDMI false) true).change_table.is_enabled
      = false :=
  ⟨rfl, rfl, rfl, rfl⟩

/-- C4 counterexample: on a disabled display with no pending enable, assigning
`resolution` its own current value raises `'The Screen is off'` instead of
being silently accepted — the off-check precedes the no-op check. -/
theorem C4_counterexample :
    dispOff.is_enabled = false ∧
    dispOff.change_table.is_enabled = false ∧
    Display.setResolution dispOff dispOff.resolution false =
      (dispOff, some .screenOff) :=
  ⟨rfl, rfl, rfl⟩

/-- C7 counterexample: an enabled display (enable pending) whose stored
resolution `(0,0)` is absent from its mode list: assigning that same pair is a
silent no-op — no `UnsupportedResolutionError` is raised. -/
theorem C7_counterexample :
    dispOffEnabled.is_enabled = true ∧
    (Display.available_resolutions dispOffEnabled).contains (0, 0) = false ∧
    Display.setResolution dispOffEnabled (0, 0) false = (dispOffEnabled, none) :=
  ⟨rfl, rfl, rfl⟩

/-- Every run of `apply_settings` either completes with the refreshed state and
no error, or raises some error with the display exactly as it was. -/
lemma apply_settings_cases (d : Display) (u e : Bool) (fresh : RawSetting) :
    Display.apply_settings d u e fresh = (Display.update_setting d fresh, none) ∨
    ∃ err, Display.apply_settings d u e fresh = (d, some err) := by
  unfold Display.apply_settings
  split
  · split
    · exact .inl rfl
    · exact .inr ⟨_, rfl⟩
  · split
    · split
      · exact .inr ⟨_, rfl⟩
      · split
        · exact .inl rfl
        · exact .inr ⟨_, rfl⟩
    · exact .inl rfl

/-- C1 (amended): whenever `apply_settings` returns without raising, the
display has been refreshed from the fresh query and every `change_table` entry
is false; whenever it raises, the display is exactly as before the call (the
`change_table` included), because the refresh never ran. -/
theorem C1_amended (d : Display) (u e : Bool) (fresh : RawSetting) :
    (∀ d', Display.apply_settings d u e fresh = (d', none) →
      d' = Display.update_setting d fresh ∧ d'.change_table = ChangeTable.allFalse) ∧
    (∀ d' err, Display.apply_settings d u e fresh = (d', some err) → d' = d) := by
  have hc := apply_settings_cases d u e fresh
  constructor
  · intro d' h
    rcases hc with hc | ⟨err, hc⟩
    · rw [h] at hc
      obtain ⟨h1, -⟩ := Prod.mk.injEq .. ▸ hc
      subst h1
      exact ⟨rfl, rfl⟩
    · rw [h] at hc
      obtain ⟨-, h2⟩ := Prod.mk.injEq .. ▸ hc
      exact absurd h2 (by simp)
  · intro d' err h
    rcases hc with hc | ⟨err', hc⟩
    · rw [h] at hc
      obtain ⟨-, h2⟩ := Prod.mk.injEq .. ▸ hc
      exact absurd h2 (by simp)
    · rw [h] at hc
      obtain ⟨h1, -⟩ := Prod.mk.injEq .. ▸ hc
      exact h1

/-- C1 witness: on the display with a pending rotation change and a succeeding
command, `apply_settings` returns the refreshed state with an all-false table. -/
theorem C1_witness :
    Display.update_setting dispPendingRot rawHD = Display.update_setting dispPendingRot rawHD ∧
    (Display.update_setting dispPendingRot rawHD).change_table = ChangeTable.allFalse :=
  (C1_amended dispPendingRot false true rawHD).1 (Display.update_setting dispPendingRot rawHD) rfl

/-- C2 (amended): a value-changing write to resolution, rotation or position
leaves the corresponding `change_table` entry true; a value-changing write to
`is_enabled` or `is_primary` negates its entry (so it is true after the call
exactly when it was false before — in particular after a single value-changing
call from a settle point, but not after every such sequence). -/
theorem C2_amended (d : Display) :
    (∀ e, e ≠ d.is_enabled →
      (Display.set_is_enabled d e).change_table.is_enabled = !d.change_table.is_enabled) ∧
    (∀ p, p ≠ d.is_primary →
      (Display.set_is_primary d p).change_table.is_primary = !d.change_table.is_primary) ∧
    (∀ s, some s ≠ d.rotation →
      (Display.setRotation d (.str s)).1.change_table.rotation = true) ∧
    (∀ a b, ((some a, some b) : Option String × Option String) ≠ d.position →
      (Display.setPosition d (a, b)).change_table.position = true) ∧
    (∀ r c d', Display.setResolution d r c = (d', none) → r ≠ d.resolution →
      d'.change_table.resolution = true) := by
  refine ⟨?_, ?_, ?_, ?_, ?_⟩
  · intro e h
    simp [Display.set_is_enabled, h]
  · intro p h
    simp [Display.set_is_primary, h]
  · intro s h
    simp [Display.setRotation, Display.setRotationVal, h]
  · intro a b h
    simp [Display.setPosition, h]
  · intro r c d' h hne
    unfold Display.setResolution at h
    split at h <;> try split at h
    all_goals simp_all
    rw [← h]

/-- C2 witness: a single value-changing write on the scenario display leaves
the entry true (for `is_enabled` via the negation of the previously-false entry). -/
theorem C2_witness :
    (Display.set_is_enabled dispHDMI false).change_table.is_enabled = true ∧
    (Display.setRotation dispHDMI (.str "left")).1.change_table.rotation = true ∧
    Display.setResolution dispHDMI (1024, 768) true =
      Display.setResolution dispHDMI (1024, 768) true :=
  ⟨(C2_amended dispHDMI).1 false (by decide),
   (C2_amended dispHDMI).2.2.1 "left" (by decide),
   rfl⟩

/-- C4 (amended): assigning `is_enabled`, `is_primary`, `rotation` or
`position` its stored value is a silent no-op in every state; assigning
`resolution` its stored value is a silent no-op when the display is enabled or
an enable is pending, but raises `'The Screen is off'` (still changing
nothing) on a disabled display with no pending enable. -/
theorem C4_amended (d : Display) :
    Display.set_is_enabled d d.is_enabled = d ∧
    Display.set_is_primary d d.is_primary = d ∧
    (∀ s, d.rotation = some s → Display.setRotation d (.str s) = (d, none)) ∧
    (∀ a b, d.position = (some a, some b) → Display.setPosition d (a, b) = d) ∧
    (∀ c, (d.is_enabled || d.change_table.is_enabled) = true →
      Display.setResolution d d.resolution c = (d, none)) ∧
    (∀ c, d.is_enabled = false → d.change_table.is_enabled = false →
      Display.setResolution d d.resolution c = (d, some .screenOff)) := by
  refine ⟨?_, ?_, ?_, ?_, ?_, ?_⟩
  · simp [Display.set_is_enabled]
  · simp [Display.set_is_primary]
  · intro s h
    simp [Display.setRotation, Display.setRotationVal, h]
  · intro a b h
    simp [Display.setPosition, h]
  · intro c h
    have : (!d.is_enabled && !d.change_table.is_enabled) = false := by
      rcases Bool.or_eq_true_iff.mp h with h' | h' <;> simp [h']
    simp [Display.setResolution, this]
  · intro c h1 h2
    simp [Display.setResolution, h1, h2]

/-- C4 witness: no-op writes on the enabled scenario display are silently
accepted for `is_enabled`, `rotation` and `resolution`. -/
theorem C4_witness :
    Display.set_is_enabled dispHDMI dispHDMI.is_enabled = dispHDMI ∧
    Display.setRotation dispHDMI (.str "normal") = (dispHDMI, none) ∧
    Display.setResolution dispHDMI dispHDMI.resolution false = (dispHDMI, none) :=
  ⟨(C4_amended dispHDMI).1,
   (C4_amended dispHDMI).2.2.1 "normal" rfl,
   (C4_amended dispHDMI).2.2.2.2.1 false rfl⟩

/-- C5: on an enabled display with no pending `is_enabled` change but any
combination of other pending changes, `set_is_enabled false` followed by
`build_cmd` yields exactly the four tokens of the `--off` command. -/
theorem C5_disable_dominates (d : Display) (hen : d.is_enabled = true)
    (hct : d.change_table.is_enabled = false) :
    Display.build_cmd (Display.set_is_enabled d false) =
      .ok (some ["xrandr", "--output", d.name, "--off"]) := by
  have h1 : Display.set_is_enabled d false =
      { d with is_enabled := false,
               change_table := { d.change_table with is_enabled := true } } := by
    simp [Display.set_is_enabled, hen, hct]
  rw [h1]
  simp [Display.build_cmd, Display.anyChanged]

/-- C5 witness: disabling the scenario display yields the exact `--off` command. -/
theorem C5_witness :
    Display.build_cmd (Display.set_is_enabled dispHDMI false) =
      .ok (some ["xrandr", "--output", "HDMI-1", "--off"]) :=
  C5_disable_dominates dispHDMI rfl rfl

/-- C7 (amended): on an enabled display, requesting a resolution that is
absent from the mode list and differs from the stored value raises
`UnsupportedResolutionError` and leaves the display (its `change_table`
included) untouched; a request equal to the stored value is instead a silent
no-op. -/
theorem C7_amended (d : Display) (r : Nat × Nat) (hen : d.is_enabled = true)
    (habs : r ∉ Display.available_resolutions d)
    (hne : r ≠ d.resolution) :
    Display.setResolution d r false = (d, some (.unsupportedResolution r)) := by
  simp [Display.setResolution, hen, habs, hne]

/-- C7 witness: requesting 800x600 on the scenario display (whose only mode is
1920x1080) raises the unsupported-resolution error with the state unchanged. -/
theorem C7_witness :
    Display.setResolution dispHDMI (800, 600) false =
      (dispHDMI, some (.unsupportedResolution (800, 600))) :=
  C7_amended dispHDMI (800, 600) rfl (by decide) (by decide)

/-- C8: on a disabled display with no pending enable, every resolution write
raises `'The Screen is off'` and changes nothing; with a pending enable queued,
that error is never raised. -/
theorem C8_off_guard (d : Display) (r : Nat × Nat) (c : Bool) :
    (d.is_enabled = false → d.change_table.is_enabled = false →
      Display.setResolution d r c = (d, some .screenOff)) ∧
    (d.change_table.is_enabled = true →
      (Display.setResolution d r c).2 ≠ some .screenOff) := by
  constructor
  · intro h1 h2
    simp [Display.setResolution, h1, h2]
  · intro h
    unfold Display.setResolution
    rw [h]
    simp only [Bool.not_true, Bool.and_false]
    split
    · simp_all
    · split
      · split <;> simp
      · simp

/-- C8 witness: a resolution write on the disabled fixture raises the off
error and leaves the object unchanged; after queueing an enable it does not. -/
theorem C8_witness :
    Display.setResolution dispOff (800, 600) false = (dispOff, some .screenOff) ∧
    (Display.setResolution dispOffEnabled (800, 600) false).2 ≠ some .screenOff :=
  ⟨(C8_off_guard dispOff (800, 600) false).1 rfl rfl,
   (C8_off_guard dispOffEnabled (800, 600) false).2 rfl⟩

/-- C10: the rotation setter raises the codec error exactly for integers
outside `{0, 90, 180, 270}`; every string argument raises nothing and is
stored verbatim when it differs from the stored value; and with a pending
rotation (and no pending position or disable) `build_cmd` emits `--rotate`
followed by the stored string unvalidated, whatever that string is. -/
theorem C10_rotation_leniency (d : Display) :
    (∀ n : Int, (Display.setRotation d (.int n)).2 = none ↔
      (n = 0 ∨ n = 90 ∨ n = 180 ∨ n = 270)) ∧
    (∀ n : Int, ¬(n = 0 ∨ n = 90 ∨ n = 180 ∨ n = 270) →
      Display.setRotation d (.int n) = (d, some (.invalidRotation n))) ∧
    (∀ s, (Display.setRotation d (.str s)).2 = none) ∧
    (∀ s, some s ≠ d.rotation → (Display.setRotation d (.str s)).1.rotation = some s) ∧
    (∀ s, d.rotation = some s → d.change_table.rotation = true →
      d.change_table.position = false →
      (d.change_table.is_enabled && !d.is_enabled) = false →
      ∃ pre, Display.build_cmd d = .ok (some (pre ++ ["--rotate", s]))) := by
  refine ⟨?_, ?_, ?_, ?_, ?_⟩
  · intro n
    show (match rotToSymbol n with
          | .error e => (d, some e)
          | .ok s => (Display.setRotationVal d s, none)).2 = none ↔ _
    unfold rotToSymbol
    split_ifs <;> simp_all
  · intro n h
    show (match rotToSymbol n with
          | .error e => (d, some e)
          | .ok s => (Display.setRotationVal d s, none)) = _
    unfold rotToSymbol
    split_ifs <;> simp_all
  · intro s
    simp [Display.setRotation]
  · intro s h
    simp [Display.setRotation, Display.setRotationVal, h]
  · intro s hs hrot hposf hoff
    refine ⟨["xrandr", "--output", d.name]
      ++ (if d.change_table.resolution then ["--mode", Display.resToStr d.resolution]
          else ["--auto"])
      ++ (if d.is_primary && d.change_table.is_primary then ["--primary"] else []), ?_⟩
    unfold Display.build_cmd
    simp [Display.anyChanged, hrot, hoff, hposf, hs, List.append_assoc]

/-- C10 witness: integer 45 raises the codec error; the unrecognized string
`UPSIDE`, once stored, reaches the synthesized command behind `--rotate`. -/
theorem C10_witness :
    Display.setRotation dispHDMI (.int 45) = (dispHDMI, some (.invalidRotation 45)) ∧
    (∃ pre, Display.build_cmd (Display.setRotationVal dispHDMI "UPSIDE") =
      .ok (some (pre ++ ["--rotate", "UPSIDE"]))) :=
  ⟨(C10_rotation_leniency dispHDMI).2.1 45 (by decide),
   (C10_rotation_leniency (Display.setRotationVal dispHDMI "UPSIDE")).2.2.2.2 "UPSIDE"
     rfl rfl rfl rfl⟩

end Pyrandr2
